import Mathlib

/-
Shallow embedding of the sensor-dashboard server's core pipeline
(ingestion, threshold evaluation, alert deduplication, event fan-out,
synthetic generation) and proofs of the specification's claims about it.

Numbers flowing through the pipeline are embedded as rationals; the
request clock and timestamps are integer milliseconds.  JavaScript
string operations (toLowerCase, includes) are embedded as executable
functions over character lists.
-/

namespace Dash

/-- Status of an out-of-range reading: the strings "low" and "high" the
source stores in alerts.status (the CHECK constraint admits only these). -/
inductive AlertStatus
  | low
  | high
deriving DecidableEq, Repr

/-- Per-sensor bounds, the values of the THRESHOLDS table. -/
structure Threshold where
  min : ℚ
  max : ℚ
deriving DecidableEq, Repr

/-- The THRESHOLDS constant: four configured sensors, every other name
has no threshold. -/
def THRESHOLDS (name : String) : Option Threshold :=
  if name = "Temperature Sensor 1" then some ⟨18, 28⟩
  else if name = "Humidity Sensor 1" then some ⟨30, 60⟩
  else if name = "CO2 Sensor 1" then some ⟨0, 800⟩
  else if name = "Light Sensor 1" then some ⟨100, 700⟩
  else none

/-- Object.keys(THRESHOLDS), in insertion order. -/
def SENSOR_NAMES : List String :=
  ["Temperature Sensor 1", "Humidity Sensor 1", "CO2 Sensor 1", "Light Sensor 1"]

/-- Result of the JavaScript coercion Number(x) on the submitted value:
either a finite double (embedded as a rational) or a non-finite result
(NaN or an infinity, as for Number("abc") or Number(undefined)). -/
inductive JSNum
  | finite (q : ℚ)
  | nonfinite
deriving DecidableEq, Repr

/-- The value field of the request body: absent (undefined) or present
with the given Number(...) coercion. -/
inductive BodyVal
  | undefined
  | given (n : JSNum)
deriving DecidableEq, Repr

/-- toNumber of the source: Number.isFinite(v) ? v : 0. -/
def toNumber : JSNum → ℚ
  | .finite q => q
  | .nonfinite => 0

/-- Math.abs. -/
def mathAbs (q : ℚ) : ℚ := if q < 0 then -q else q

/-- withinAlertRange of the source, generic in the threshold table it
reads: "high" when the value is strictly above max, "low" when strictly
below min, null (none) otherwise or when the name has no threshold. -/
def withinAlertRange (thresholds : String → Option Threshold)
    (name : String) (value : ℚ) : Option AlertStatus :=
  match thresholds name with
  | none => none
  | some thr =>
    if value > thr.max then some .high
    else if value < thr.min then some .low
    else none

/-- Whether the pattern is an initial run of the list, chars compared
by equality. -/
def listStartsWith : List Char → List Char → Bool
  | [], _ => true
  | _ :: _, [] => false
  | p :: ps, c :: cs => p == c && listStartsWith ps cs

/-- Whether the pattern occurs as a contiguous run somewhere in the
list: the character-level content of JavaScript String.includes. -/
def listContainsRun (p : List Char) : List Char → Bool
  | [] => p.isEmpty
  | c :: cs => listStartsWith p (c :: cs) || listContainsRun p cs

/-- The JavaScript s.includes(pat). -/
def strIncludes (s pat : String) : Bool :=
  listContainsRun pat.toList s.toList

/-- kindFromName of the source: lowercase the name, then first match
among temp, humid, co2, light wins; otherwise "other". -/
def kindFromName (n : String) : String :=
  let m := n.toList.map Char.toLower
  if listContainsRun "temp".toList m then "temperature"
  else if listContainsRun "humid".toList m then "humidity"
  else if listContainsRun "co2".toList m then "co2"
  else if listContainsRun "light".toList m then "light"
  else "other"

/-- The ALERT_MIN_DELTA table: per-category minimum meaningful change. -/
def ALERT_MIN_DELTA (k : String) : Option ℚ :=
  if k = "temperature" then some (1/2)
  else if k = "humidity" then some 2
  else if k = "co2" then some 50
  else if k = "light" then some 30
  else none

/-- ALERT_MIN_DELTA[k] ?? 1, exactly as the dedup gate reads the table. -/
def minDeltaOf (k : String) : ℚ := (ALERT_MIN_DELTA k).getD 1

/-- ALERT_COOLDOWN_MS = 120000, two minutes in milliseconds. -/
def ALERT_COOLDOWN_MS : ℤ := 120000

/-- One row of the sensor_data table (the append-only reading log). -/
structure ReadingRow where
  sensor_name : String
  value : ℚ
  unit : Option String
  recorded_at : ℤ
deriving DecidableEq, Repr

/-- One row of the sensors table (the per-name latest snapshot). -/
structure SensorRow where
  name : String
  value : ℚ
  unit : Option String
  updated_at : ℤ
deriving DecidableEq, Repr

/-- One row of the alerts table. -/
structure AlertRow where
  sensor_name : String
  value : ℚ
  status : AlertStatus
  triggered_at : ℤ
deriving DecidableEq, Repr

/-- The database state the pipeline touches.  sensor_data and alerts
are kept newest first: an INSERT prepends, so under the pipeline's
monotone NOW() stamping the head of a filtered list is the row that
ORDER BY recorded_at / triggered_at DESC LIMIT 1 returns. -/
structure Store where
  sensor_data : List ReadingRow
  sensors : List SensorRow
  alerts : List AlertRow
deriving DecidableEq, Repr

/-- INSERT INTO sensor_data. -/
def insertReading (st : Store) (name : String) (v : ℚ)
    (u : Option String) (t : ℤ) : Store :=
  { st with sensor_data := ⟨name, v, u, t⟩ :: st.sensor_data }

/-- INSERT INTO sensors ... ON CONFLICT (name) DO UPDATE: replace the
row bearing the name when present, append a fresh row otherwise. -/
def upsertRow (rows : List SensorRow) (r : SensorRow) : List SensorRow :=
  if rows.any (fun x => x.name == r.name) then
    rows.map (fun x => if x.name == r.name then r else x)
  else rows ++ [r]

/-- Upsert on the sensors table of the store. -/
def upsertSensor (st : Store) (r : SensorRow) : Store :=
  { st with sensors := upsertRow st.sensors r }

/-- SELECT ... FROM sensors WHERE name=$1. -/
def findSensor (st : Store) (name : String) : Option SensorRow :=
  st.sensors.find? (fun x => x.name == name)

/-- SELECT value, status, triggered_at FROM alerts WHERE sensor_name=$1
ORDER BY triggered_at DESC LIMIT 1, on the newest-first alerts list. -/
def mostRecentAlert (st : Store) (name : String) : Option AlertRow :=
  (st.alerts.filter (fun a => a.sensor_name == name)).head?

/-- INSERT INTO alerts. -/
def insertAlert (st : Store) (name : String) (v : ℚ)
    (s : AlertStatus) (t : ℤ) : Store :=
  { st with alerts := ⟨name, v, s, t⟩ :: st.alerts }

/-- The socket events io.emit broadcasts on the ingestion path. -/
inductive Event
  | sensorUpdated (row : SensorRow)
  | sensorAlert (sensor : String) (value : ℚ) (status : AlertStatus) (time : ℤ)
deriving DecidableEq, Repr

/-- Whether an event is a sensor-alert broadcast. -/
def isAlertEvent : Event → Bool
  | .sensorAlert _ _ _ _ => true
  | _ => false

/-- Failure injection for the two awaited store calls of the alert
path; true models the query throwing, which lands the handler in its
catch block. -/
structure AlertPathFailure where
  lookupFails : Bool
  insertFails : Bool
deriving DecidableEq, Repr

/-- No injected failure: every store call succeeds. -/
def noFailure : AlertPathFailure := ⟨false, false⟩

/-- unit || null of the source: an empty (falsy) unit string becomes null. -/
def unitOrNull : Option String → Option String
  | some s => if s = "" then none else some s
  | none => none

/-- Outcome of one request: the HTTP status answered, the store after
the call, and the socket events broadcast, in emission order. -/
structure HandlerOut where
  status : Nat
  store : Store
  events : List Event
deriving DecidableEq, Repr

/-- The dedup gate both ingestion paths inline (shouldInsert of the
source): raise unless the most recent prior alert of the sensor exists,
has the same status, lies within minDelta of the new value, and fired
less than the cooldown window ago. -/
def shouldRaise (lastAlert : Option AlertRow) (name : String) (val : ℚ)
    (status : AlertStatus) (now : ℤ) : Bool :=
  match lastAlert with
  | none => true
  | some lastA =>
    !(lastA.status == status
      && decide (mathAbs (val - lastA.value) < minDeltaOf (kindFromName name))
      && decide (now - lastA.triggered_at < ALERT_COOLDOWN_MS))

/-- app.post /api/reading of the source, as a function of the failure
injection, prior store, clock (ms since epoch) and request body.  The
validation guard answers 400 before any mutation; a throwing alert-path
query lands in the catch, which answers 500 and keeps the mutations
already made. -/
def postReading (fail : AlertPathFailure) (st : Store) (now : ℤ)
    (name : String) (value : BodyVal) (unit : Option String) : HandlerOut :=
  match value with
  | .undefined => ⟨400, st, []⟩
  | .given n =>
    if name = "" then ⟨400, st, []⟩
    else
      let val := toNumber n
      let u := unitOrNull unit
      let st1 := insertReading st name val u now
      let latest : SensorRow := ⟨name, val, u, now⟩
      let st2 := upsertSensor st1 latest
      let evs := [Event.sensorUpdated latest]
      match withinAlertRange THRESHOLDS name val with
      | none => ⟨201, st2, evs⟩
      | some status =>
        if fail.lookupFails then ⟨500, st2, evs⟩
        else
          if shouldRaise (mostRecentAlert st2 name) name val status now then
            if fail.insertFails then ⟨500, st2, evs⟩
            else
              ⟨201, insertAlert st2 name val status now,
                evs ++ [Event.sensorAlert name val status now]⟩
          else ⟨201, st2, evs⟩

/-- The per-category drift magnitude of nextValue (case-sensitive
name.includes, as in the source). -/
def baseDrift (name : String) : ℚ :=
  if strIncludes name "Temperature" then 12/10
  else if strIncludes name "Humidity" then 4
  else if strIncludes name "CO2" then 60
  else if strIncludes name "Light" then 80
  else 1

/-- The per-category spike probability of nextValue. -/
def pSpike (name : String) : ℚ :=
  if strIncludes name "Temperature" then 35/100
  else if strIncludes name "Humidity" then 25/100
  else if strIncludes name "CO2" then 25/100
  else if strIncludes name "Light" then 25/100
  else 1/10

/-- Number(x.toFixed(2)): round to two decimal places.  Ties round half
up; the doubles the generator actually feeds it are never exact ties,
so the tie rule is immaterial to the claims. -/
def round2 (q : ℚ) : ℚ := (round (q * 100) : ℤ) / 100

/-- The four Math.random() draws one nextValue call may consume, each a
real of [0,1) embedded as a rational: the walk draw, the spike draw,
the direction draw and the margin draw. -/
structure RandDraws where
  r1 : ℚ
  r2 : ℚ
  r3 : ℚ
  r4 : ℚ
deriving DecidableEq, Repr

/-- nextValue of the source: a bounded random walk from the last value,
a possible spike past the bounds, a clamp to [min - 6*drift, max + 6*drift],
then rounding to two decimals. -/
def nextValue (name : String) (lastv : ℚ) (thr : Threshold) (r : RandDraws) : ℚ :=
  let drift := baseDrift name
  let walk := lastv + (r.r1 * 2 - 1) * drift
  let candidate :=
    if r.r2 < pSpike name then
      if r.r3 < 1/2 then thr.max + (r.r4 * drift + drift)
      else thr.min - (r.r4 * drift + drift)
    else walk
  let clampMin := thr.min - drift * 6
  let clampMax := thr.max + drift * 6
  round2 (max clampMin (min clampMax candidate))

/-- unitFor of the source. -/
def unitFor (name : String) : Option String :=
  if strIncludes name "Temperature" then some "°C"
  else if strIncludes name "Humidity" then some "%"
  else if strIncludes name "CO2" then some "ppm"
  else if strIncludes name "Light" then some "lux"
  else none

/-- Baseline of one simulateOnce iteration: the latest snapshot value
of the sensor, or the midpoint of its bounds when no snapshot exists. -/
def simLatest (st : Store) (name : String) (thr : Threshold) : ℚ :=
  match findSensor st name with
  | some row => row.value
  | none => (thr.min + thr.max) / 2

/-- One loop iteration of simulateOnce for one sensor name and its
thresholds: read the baseline, synthesize the next value, then persist,
publish and run the alert gate exactly as the reading route does. -/
def simulateSensorOnce (st : Store) (now : ℤ) (name : String)
    (thr : Threshold) (r : RandDraws) : Store × List Event :=
  let candidate := nextValue name (simLatest st name thr) thr r
  let u := unitFor name
  let st1 := insertReading st name candidate u now
  let row : SensorRow := ⟨name, candidate, u, now⟩
  let st2 := upsertSensor st1 row
  let evs := [Event.sensorUpdated row]
  match withinAlertRange THRESHOLDS name candidate with
  | none => (st2, evs)
  | some status =>
    if shouldRaise (mostRecentAlert st2 name) name candidate status now then
      (insertAlert st2 name candidate status now,
        evs ++ [Event.sensorAlert name candidate status now])
    else (st2, evs)

/-- Codepoint-lexicographic order on char lists, the order ORDER BY
name ASC sorts TEXT by (C collation). -/
def lexLeB : List Char → List Char → Bool
  | [], _ => true
  | _ :: _, [] => false
  | a :: as, b :: bs =>
    if a.toNat < b.toNat then true
    else if b.toNat < a.toNat then false
    else lexLeB as bs

/-- Comparator on sensor rows by name. -/
def nameLe (a b : SensorRow) : Bool := lexLeB a.name.toList b.name.toList

/-- getLatestSensors of the source: SELECT ... FROM sensors ORDER BY name ASC. -/
def getLatestSensors (st : Store) : List SensorRow :=
  st.sensors.mergeSort nameLe

/-- The shape the connection handler maps each alert row into. -/
structure AlertOut where
  sensor : String
  value : ℚ
  status : AlertStatus
  time : ℤ
deriving DecidableEq, Repr

/-- What a freshly connected socket is sent: the all-sensors payload
and the all-alerts payload. -/
structure ConnectPayload where
  allSensors : List SensorRow
  allAlerts : List AlertOut
deriving DecidableEq, Repr

/-- io.on connection of the source: emit the snapshot list ordered by
name, then the 50 most recent alerts (ORDER BY triggered_at DESC LIMIT
50 on the newest-first list), each mapped to the wire shape. -/
def onConnection (st : Store) : ConnectPayload :=
  ⟨getLatestSensors st,
    (st.alerts.take 50).map (fun a => ⟨a.sensor_name, a.value, a.status, a.triggered_at⟩)⟩

/-- The store after the two ingestion writes of a valid call: the
reading prepended, the snapshot row upserted, alerts untouched. -/
def afterWrites (st : Store) (now : ℤ) (name : String) (val : ℚ)
    (u : Option String) : Store :=
  ⟨⟨name, val, u, now⟩ :: st.sensor_data,
    upsertRow st.sensors ⟨name, val, u, now⟩, st.alerts⟩

/-- Unfolding of the reading route on a valid body, by branch of the
alert path. -/
theorem postReading_cases (fail : AlertPathFailure) (st : Store) (now : ℤ)
    (name : String) (n : JSNum) (unit : Option String) (hname : name ≠ "") :
    postReading fail st now name (.given n) unit =
      (let val := toNumber n
       let u := unitOrNull unit
       let st2 := afterWrites st now name val u
       let row : SensorRow := ⟨name, val, u, now⟩
       match withinAlertRange THRESHOLDS name val with
       | none => ⟨201, st2, [Event.sensorUpdated row]⟩
       | some s =>
         if fail.lookupFails then ⟨500, st2, [Event.sensorUpdated row]⟩
         else if shouldRaise (mostRecentAlert st name) name val s now then
           if fail.insertFails then ⟨500, st2, [Event.sensorUpdated row]⟩
           else ⟨201, insertAlert st2 name val s now,
             [Event.sensorUpdated row, Event.sensorAlert name val s now]⟩
         else ⟨201, st2, [Event.sensorUpdated row]⟩) := by
  simp only [postReading, afterWrites, insertReading, upsertSensor]
  rw [if_neg hname]
  rfl

/-- C4: for any threshold table, any name it configures with sane
bounds, and any value, the evaluator answers high exactly when the
value is strictly above max, low exactly when strictly below min, and
normal (none) exactly on the closed interval, so both boundary values
are normal. -/
theorem C4_threshold_evaluator (tbl : String → Option Threshold)
    (name : String) (thr : Threshold) (v : ℚ)
    (hthr : tbl name = some thr) (hb : thr.min ≤ thr.max) :
    (withinAlertRange tbl name v = some .high ↔ thr.max < v) ∧
    (withinAlertRange tbl name v = some .low ↔ v < thr.min) ∧
    (withinAlertRange tbl name v = none ↔ (thr.min ≤ v ∧ v ≤ thr.max)) := by
  simp only [withinAlertRange, hthr]
  split_ifs with h1 h2
  · refine ⟨⟨fun _ => h1, fun _ => rfl⟩, ?_, ?_⟩
    · constructor
      · intro h; simp at h
      · intro h; exact absurd h (by push_neg; linarith)
    · constructor
      · intro h; simp at h
      · intro h; exact absurd h1 (by push_neg; exact h.2)
  · push_neg at h1
    refine ⟨?_, ⟨fun _ => h2, fun _ => rfl⟩, ?_⟩
    · constructor
      · intro h; simp at h
      · intro h; exact absurd h (by push_neg; exact h1)
    · constructor
      · intro h; simp at h
      · intro h; exact absurd h2 (by push_neg; exact h.1)
  · push_neg at h1 h2
    refine ⟨?_, ?_, ⟨fun _ => ⟨h2, h1⟩, fun _ => rfl⟩⟩
    · constructor
      · intro h; simp at h
      · intro h; exact absurd h (by push_neg; exact h1)
    · constructor
      · intro h; simp at h
      · intro h; exact absurd h (by push_neg; exact h2)

/-- Witness for C4 at the configured CO2 sensor and the boundary value
800, which the evaluator classifies as normal. -/
theorem C4_threshold_evaluator_witness :
    (THRESHOLDS "CO2 Sensor 1" = some ⟨0, 800⟩ ∧ (0 : ℚ) ≤ 800) ∧
    ((withinAlertRange THRESHOLDS "CO2 Sensor 1" 800 = some .high ↔ (800 : ℚ) < 800) ∧
     (withinAlertRange THRESHOLDS "CO2 Sensor 1" 800 = some .low ↔ (800 : ℚ) < 0) ∧
     (withinAlertRange THRESHOLDS "CO2 Sensor 1" 800 = none ↔ ((0 : ℚ) ≤ 800 ∧ (800 : ℚ) ≤ 800))) :=
  ⟨⟨by decide, by decide⟩,
    C4_threshold_evaluator THRESHOLDS "CO2 Sensor 1" ⟨0, 800⟩ 800 (by decide) (by decide)⟩

/-- C10: the dedup category comes from case-insensitive substring
match on the name with fixed priority temp, humid, co2, light; a name
with several keywords is classified by the first matching rule
("CO2/Temp Combo" is temperature), and a name matching none, the empty
name included, is "other", whose minDelta read by the dedup gate
defaults to 1. -/
theorem C10_category_from_name :
    kindFromName "CO2/Temp Combo" = "temperature" ∧
    kindFromName "" = "other" ∧
    minDeltaOf "other" = 1 ∧
    (∀ name : String,
      listContainsRun "temp".toList (name.toList.map Char.toLower) = true →
        kindFromName name = "temperature") ∧
    (∀ name : String,
      listContainsRun "temp".toList (name.toList.map Char.toLower) = false →
      listContainsRun "humid".toList (name.toList.map Char.toLower) = true →
        kindFromName name = "humidity") ∧
    (∀ name : String,
      listContainsRun "temp".toList (name.toList.map Char.toLower) = false →
      listContainsRun "humid".toList (name.toList.map Char.toLower) = false →
      listContainsRun "co2".toList (name.toList.map Char.toLower) = true →
        kindFromName name = "co2") ∧
    (∀ name : String,
      listContainsRun "temp".toList (name.toList.map Char.toLower) = false →
      listContainsRun "humid".toList (name.toList.map Char.toLower) = false →
      listContainsRun "co2".toList (name.toList.map Char.toLower) = false →
      listContainsRun "light".toList (name.toList.map Char.toLower) = true →
        kindFromName name = "light") ∧
    (∀ name : String,
      listContainsRun "temp".toList (name.toList.map Char.toLower) = false →
      listContainsRun "humid".toList (name.toList.map Char.toLower) = false →
      listContainsRun "co2".toList (name.toList.map Char.toLower) = false →
      listContainsRun "light".toList (name.toList.map Char.toLower) = false →
        kindFromName name = "other" ∧ minDeltaOf (kindFromName name) = 1) := by
  refine ⟨by decide, by decide, by decide, ?_, ?_, ?_, ?_, ?_⟩ <;>
    · intro name
      intros
      simp_all [kindFromName, minDeltaOf, ALERT_MIN_DELTA]

/-- Every valid call appends exactly its one reading row and upserts
exactly its one snapshot row, whatever the alert path does. -/
theorem postReading_writes (fail : AlertPathFailure) (st : Store) (now : ℤ)
    (name : String) (n : JSNum) (unit : Option String) (hname : name ≠ "") :
    (postReading fail st now name (.given n) unit).store.sensor_data =
      ⟨name, toNumber n, unitOrNull unit, now⟩ :: st.sensor_data ∧
    (postReading fail st now name (.given n) unit).store.sensors =
      upsertRow st.sensors ⟨name, toNumber n, unitOrNull unit, now⟩ := by
  rw [postReading_cases fail st now name n unit hname]
  rcases h : withinAlertRange THRESHOLDS name (toNumber n) with _ | s
  · simp [h, afterWrites]
  · simp only [h]
    split_ifs <;> simp [afterWrites, insertAlert]

/-- C2 counterexample: a NaN-coercing payload for the temperature
sensor is not rejected: the handler answers 201, appends a Reading with
value 0, upserts the snapshot to 0, and even raises a low alert. -/
theorem C2_counterexample :
    postReading noFailure ⟨[], [], []⟩ 0 "Temperature Sensor 1" (.given .nonfinite) none =
      ⟨201,
        ⟨[⟨"Temperature Sensor 1", 0, none, 0⟩],
          [⟨"Temperature Sensor 1", 0, none, 0⟩],
          [⟨"Temperature Sensor 1", 0, .low, 0⟩]⟩,
        [.sensorUpdated ⟨"Temperature Sensor 1", 0, none, 0⟩,
          .sensorAlert "Temperature Sensor 1" 0 .low 0]⟩ := by decide

/-- C2 corrected: only a missing name or an undefined value is rejected
with 400 and no mutation; a present non-finite value is not rejected:
toNumber coerces it to 0 and ingestion proceeds, appending one Reading
with value 0 and upserting the snapshot to value 0. -/
theorem C2_nonfinite_coerced (fail : AlertPathFailure) (st : Store) (now : ℤ)
    (name : String) (unit : Option String) (hname : name ≠ "") :
    postReading fail st now "" (.given .nonfinite) unit = ⟨400, st, []⟩ ∧
    postReading fail st now name .undefined unit = ⟨400, st, []⟩ ∧
    (postReading fail st now name (.given .nonfinite) unit).store.sensor_data =
      ⟨name, 0, unitOrNull unit, now⟩ :: st.sensor_data ∧
    (postReading fail st now name (.given .nonfinite) unit).store.sensors =
      upsertRow st.sensors ⟨name, 0, unitOrNull unit, now⟩ := by
  have h := postReading_writes fail st now name .nonfinite unit hname
  simp only [toNumber] at h
  exact ⟨by simp [postReading], by simp [postReading], h.1, h.2⟩

/-- Witness for C2 at the humidity sensor on a NaN payload. -/
theorem C2_nonfinite_coerced_witness :
    ("Humidity Sensor 1" ≠ "") ∧
    (postReading noFailure ⟨[], [], []⟩ 7 "" (.given .nonfinite) none = ⟨400, ⟨[], [], []⟩, []⟩ ∧
     postReading noFailure ⟨[], [], []⟩ 7 "Humidity Sensor 1" .undefined none = ⟨400, ⟨[], [], []⟩, []⟩ ∧
     (postReading noFailure ⟨[], [], []⟩ 7 "Humidity Sensor 1" (.given .nonfinite) none).store.sensor_data =
       ⟨"Humidity Sensor 1", 0, unitOrNull none, 7⟩ :: ([] : List ReadingRow) ∧
     (postReading noFailure ⟨[], [], []⟩ 7 "Humidity Sensor 1" (.given .nonfinite) none).store.sensors =
       upsertRow [] ⟨"Humidity Sensor 1", 0, unitOrNull none, 7⟩) :=
  ⟨by decide, C2_nonfinite_coerced noFailure ⟨[], [], []⟩ 7 "Humidity Sensor 1" none (by decide)⟩

/-- C3 counterexample: with the most-recent-alert lookup throwing, the
call keeps the reading append and snapshot upsert but answers 500, not
success. -/
theorem C3_counterexample :
    (postReading ⟨true, false⟩ ⟨[], [], []⟩ 0 "CO2 Sensor 1" (.given (.finite 900)) none).status = 500 ∧
    (postReading ⟨true, false⟩ ⟨[], [], []⟩ 0 "CO2 Sensor 1" (.given (.finite 900)) none).store =
      ⟨[⟨"CO2 Sensor 1", 900, none, 0⟩], [⟨"CO2 Sensor 1", 900, none, 0⟩], []⟩ := by decide

/-- C3 corrected: when the alert path fails after the reading append
and snapshot upsert succeeded, those writes are not rolled back and are
exactly one reading row and one snapshot upsert, but the call answers
500, not success. -/
theorem C3_alert_path_failure (fail : AlertPathFailure) (st : Store) (now : ℤ)
    (name : String) (n : JSNum) (unit : Option String) (hname : name ≠ "") :
    (postReading fail st now name (.given n) unit).store.sensor_data =
      ⟨name, toNumber n, unitOrNull unit, now⟩ :: st.sensor_data ∧
    (postReading fail st now name (.given n) unit).store.sensors =
      upsertRow st.sensors ⟨name, toNumber n, unitOrNull unit, now⟩ ∧
    (∀ s, withinAlertRange THRESHOLDS name (toNumber n) = some s →
      fail.lookupFails = true →
      (postReading fail st now name (.given n) unit).status = 500) ∧
    (∀ s, withinAlertRange THRESHOLDS name (toNumber n) = some s →
      fail.lookupFails = false →
      shouldRaise (mostRecentAlert st name) name (toNumber n) s now = true →
      fail.insertFails = true →
      (postReading fail st now name (.given n) unit).status = 500) := by
  refine ⟨(postReading_writes fail st now name n unit hname).1,
    (postReading_writes fail st now name n unit hname).2, ?_, ?_⟩
  · intro s hs hl
    rw [postReading_cases fail st now name n unit hname]
    simp only [hs, hl, if_true]
  · intro s hs hl hr hi
    rw [postReading_cases fail st now name n unit hname]
    simp only [hs, hl, hr, hi]
    simp

/-- Witness for C3: the lookup failure on a CO2 reading of 900. -/
theorem C3_alert_path_failure_witness :
    ("CO2 Sensor 1" ≠ "") ∧
    ((postReading ⟨true, false⟩ ⟨[], [], []⟩ 0 "CO2 Sensor 1" (.given (.finite 900)) none).store.sensor_data =
       ⟨"CO2 Sensor 1", 900, unitOrNull none, 0⟩ :: ([] : List ReadingRow) ∧
     (postReading ⟨true, false⟩ ⟨[], [], []⟩ 0 "CO2 Sensor 1" (.given (.finite 900)) none).store.sensors =
       upsertRow [] ⟨"CO2 Sensor 1", 900, unitOrNull none, 0⟩ ∧
     (∀ s, withinAlertRange THRESHOLDS "CO2 Sensor 1" (toNumber (.finite 900)) = some s →
       (⟨true, false⟩ : AlertPathFailure).lookupFails = true →
       (postReading ⟨true, false⟩ ⟨[], [], []⟩ 0 "CO2 Sensor 1" (.given (.finite 900)) none).status = 500) ∧
     (∀ s, withinAlertRange THRESHOLDS "CO2 Sensor 1" (toNumber (.finite 900)) = some s →
       (⟨true, false⟩ : AlertPathFailure).lookupFails = false →
       shouldRaise (mostRecentAlert ⟨[], [], []⟩ "CO2 Sensor 1") "CO2 Sensor 1" (toNumber (.finite 900)) s 0 = true →
       (⟨true, false⟩ : AlertPathFailure).insertFails = true →
       (postReading ⟨true, false⟩ ⟨[], [], []⟩ 0 "CO2 Sensor 1" (.given (.finite 900)) none).status = 500)) :=
  ⟨by decide, C3_alert_path_failure ⟨true, false⟩ ⟨[], [], []⟩ 0 "CO2 Sensor 1" (.finite 900) none (by decide)⟩

/-- Rounding to two decimals moves a rational by at most 1/200 and
lands on an integer multiple of 1/100. -/
theorem round2_near (q : ℚ) :
    q - 1/200 ≤ round2 q ∧ round2 q ≤ q + 1/200 ∧ ∃ k : ℤ, round2 q = (k : ℚ) / 100 := by
  have h := abs_sub_round (q * 100)
  rw [abs_le] at h
  obtain ⟨h1, h2⟩ := h
  unfold round2
  refine ⟨by linarith, by linarith, round (q * 100), rfl⟩

/-- The clamp-then-round tail of nextValue stays within 1/200 of the
clamp interval and lands on a multiple of 1/100. -/
theorem clampRound_bounds (lo hi c : ℚ) (h : lo ≤ hi) :
    lo - 1/200 ≤ round2 (max lo (min hi c)) ∧
    round2 (max lo (min hi c)) ≤ hi + 1/200 ∧
    ∃ k : ℤ, round2 (max lo (min hi c)) = (k : ℚ) / 100 := by
  have hlo : lo ≤ max lo (min hi c) := le_max_left _ _
  have hhi : max lo (min hi c) ≤ hi := max_le h (min_le_left _ _)
  obtain ⟨g1, g2, k, hk⟩ := round2_near (max lo (min hi c))
  exact ⟨by linarith, by linarith, k, hk⟩

/-- C9 counterexample: for a sensor of the default category (drift 1)
with bounds min = 1/1000, max = 1, a large downward walk is clamped to
min - 6 = -5.999, and rounding to two decimals returns -6, strictly
below the claimed closed interval. -/
theorem C9_counterexample :
    nextValue "Sensor X" (-100) ⟨1/1000, 1⟩ ⟨0, 1/2, 0, 0⟩ = -6 ∧
    (-6 : ℚ) < 1/1000 - baseDrift "Sensor X" * 6 := by
  have hT : strIncludes "Sensor X" "Temperature" = false := by decide
  have hH : strIncludes "Sensor X" "Humidity" = false := by decide
  have hC : strIncludes "Sensor X" "CO2" = false := by decide
  have hL : strIncludes "Sensor X" "Light" = false := by decide
  constructor
  · simp only [nextValue, baseDrift, pSpike, hT, hH, hC, hL, if_false, round2]
    norm_num [round_eq]
  · simp only [baseDrift, hT, hH, hC, hL, if_false]
    norm_num

/-- C9 corrected: for sane bounds the generated value lies within
1/200 of the closed interval [min - 6*drift, max + 6*drift] (the
clamped candidate is inside it; the final rounding to two decimals can
leave it by at most half a hundredth) and is an integer multiple of
1/100. -/
theorem C9_next_value_bounds (name : String) (lastv : ℚ) (thr : Threshold)
    (r : RandDraws) (hb : thr.min ≤ thr.max) :
    thr.min - baseDrift name * 6 - 1/200 ≤ nextValue name lastv thr r ∧
    nextValue name lastv thr r ≤ thr.max + baseDrift name * 6 + 1/200 ∧
    ∃ k : ℤ, nextValue name lastv thr r = (k : ℚ) / 100 := by
  have hd : (0 : ℚ) ≤ baseDrift name := by
    unfold baseDrift; split_ifs <;> norm_num
  simp only [nextValue]
  exact clampRound_bounds _ _ _ (by linarith)

/-- The gate suppresses (answers false) exactly when the prior alert
exists with the same status, within minDelta and within the cooldown. -/
theorem shouldRaise_eq_false_iff (lastAlert : Option AlertRow) (name : String)
    (val : ℚ) (s : AlertStatus) (now : ℤ) :
    shouldRaise lastAlert name val s now = false ↔
    (∃ lastA, lastAlert = some lastA ∧ lastA.status = s ∧
      mathAbs (val - lastA.value) < minDeltaOf (kindFromName name) ∧
      now - lastA.triggered_at < ALERT_COOLDOWN_MS) := by
  cases lastAlert with
  | none => simp [shouldRaise]
  | some lastA =>
    simp only [shouldRaise, Bool.not_eq_false', Bool.and_eq_true, beq_iff_eq,
      decide_eq_true_eq, Option.some.injEq]
    constructor
    · rintro ⟨⟨h1, h2⟩, h3⟩
      exact ⟨lastA, rfl, h1, h2, h3⟩
    · rintro ⟨x, hx, h1, h2, h3⟩
      subst hx
      exact ⟨⟨h1, h2⟩, h3⟩

/-- Unfolding of one simulateOnce iteration, by branch of the alert
path. -/
theorem simulateSensorOnce_cases (st : Store) (now : ℤ) (name : String)
    (thr : Threshold) (r : RandDraws) :
    simulateSensorOnce st now name thr r =
      (let candidate := nextValue name (simLatest st name thr) thr r
       let row : SensorRow := ⟨name, candidate, unitFor name, now⟩
       let st2 := afterWrites st now name candidate (unitFor name)
       match withinAlertRange THRESHOLDS name candidate with
       | none => (st2, [Event.sensorUpdated row])
       | some s =>
         if shouldRaise (mostRecentAlert st name) name candidate s now then
           (insertAlert st2 name candidate s now,
             [Event.sensorUpdated row, Event.sensorAlert name candidate s now])
         else (st2, [Event.sensorUpdated row])) := by
  simp only [simulateSensorOnce, afterWrites, insertReading, upsertSensor]
  rfl

/-- C1: on both ingestion paths — the reading route and one
simulateOnce iteration — a reading that evaluates low or high has its
new alert suppressed (alert log unchanged, no alert event published)
exactly when a most recent prior alert for the sensor exists, has the
same status, lies strictly within the category's minDelta of the new
value, and fired strictly less than the cooldown window ago; if any
condition fails a new alert is raised. -/
theorem C1_dedup_gate :
    (∀ (st : Store) (now : ℤ) (name : String) (q : ℚ) (unit : Option String)
        (s : AlertStatus), name ≠ "" →
      withinAlertRange THRESHOLDS name q = some s →
      (((postReading noFailure st now name (.given (.finite q)) unit).store.alerts = st.alerts ∧
        ∀ e ∈ (postReading noFailure st now name (.given (.finite q)) unit).events,
          isAlertEvent e = false) ↔
      (∃ lastA, mostRecentAlert st name = some lastA ∧ lastA.status = s ∧
        mathAbs (q - lastA.value) < minDeltaOf (kindFromName name) ∧
        now - lastA.triggered_at < ALERT_COOLDOWN_MS))) ∧
    (∀ (st : Store) (now : ℤ) (name : String) (thr : Threshold) (r : RandDraws)
        (s : AlertStatus),
      withinAlertRange THRESHOLDS name (nextValue name (simLatest st name thr) thr r) = some s →
      (((simulateSensorOnce st now name thr r).1.alerts = st.alerts ∧
        ∀ e ∈ (simulateSensorOnce st now name thr r).2, isAlertEvent e = false) ↔
      (∃ lastA, mostRecentAlert st name = some lastA ∧ lastA.status = s ∧
        mathAbs (nextValue name (simLatest st name thr) thr r - lastA.value) <
          minDeltaOf (kindFromName name) ∧
        now - lastA.triggered_at < ALERT_COOLDOWN_MS))) := by
  constructor
  · intro st now name q unit s hname hs
    rw [postReading_cases noFailure st now name (.finite q) unit hname]
    simp only [toNumber, hs, noFailure, Bool.false_eq_true, if_false]
    cases hr : shouldRaise (mostRecentAlert st name) name q s now
    · simp only [hr, Bool.false_eq_true, if_false]
      constructor
      · intro _
        exact (shouldRaise_eq_false_iff (mostRecentAlert st name) name q s now).mp hr
      · intro _
        refine ⟨by simp [afterWrites], ?_⟩
        intro e he
        simp only [List.mem_singleton] at he
        subst he
        rfl
    · simp only [hr, if_true]
      constructor
      · intro hsup
        exfalso
        have hmem := hsup.2 (Event.sensorAlert name q s now) (by simp)
        simp [isAlertEvent] at hmem
      · intro hex
        exfalso
        have hfalse :=
          (shouldRaise_eq_false_iff (mostRecentAlert st name) name q s now).mpr hex
        simp [hr] at hfalse
  · intro st now name thr r s hs
    rw [simulateSensorOnce_cases st now name thr r]
    simp only [hs]
    cases hr : shouldRaise (mostRecentAlert st name) name
        (nextValue name (simLatest st name thr) thr r) s now
    · simp only [hr, Bool.false_eq_true, if_false]
      constructor
      · intro _
        exact (shouldRaise_eq_false_iff (mostRecentAlert st name) name
          (nextValue name (simLatest st name thr) thr r) s now).mp hr
      · intro _
        refine ⟨by simp [afterWrites], ?_⟩
        intro e he
        simp only [List.mem_singleton] at he
        subst he
        rfl
    · simp only [hr, if_true]
      constructor
      · intro hsup
        exfalso
        have hmem := hsup.2
          (Event.sensorAlert name (nextValue name (simLatest st name thr) thr r) s now)
          (by simp)
        simp [isAlertEvent] at hmem
      · intro hex
        exfalso
        have hfalse := (shouldRaise_eq_false_iff (mostRecentAlert st name) name
          (nextValue name (simLatest st name thr) thr r) s now).mpr hex
        simp [hr] at hfalse

/-- Witness for C1 on both paths over the empty store, where no prior
alert exists, the gate raises, and both sides of each equivalence are
false: the reading route ingests 900 for the CO2 sensor, and one
simulateOnce iteration spikes the CO2 sensor to 860. -/
theorem C1_dedup_gate_witness :
    ("CO2 Sensor 1" ≠ "") ∧
    (withinAlertRange THRESHOLDS "CO2 Sensor 1" 900 = some .high) ∧
    (((postReading noFailure ⟨[], [], []⟩ 0 "CO2 Sensor 1" (.given (.finite 900)) none).store.alerts =
        (⟨[], [], []⟩ : Store).alerts ∧
      ∀ e ∈ (postReading noFailure ⟨[], [], []⟩ 0 "CO2 Sensor 1" (.given (.finite 900)) none).events,
        isAlertEvent e = false) ↔
    (∃ lastA, mostRecentAlert ⟨[], [], []⟩ "CO2 Sensor 1" = some lastA ∧ lastA.status = .high ∧
      mathAbs (900 - lastA.value) < minDeltaOf (kindFromName "CO2 Sensor 1") ∧
      (0 : ℤ) - lastA.triggered_at < ALERT_COOLDOWN_MS)) ∧
    (nextValue "CO2 Sensor 1" (simLatest ⟨[], [], []⟩ "CO2 Sensor 1" ⟨0, 800⟩) ⟨0, 800⟩
        ⟨0, 0, 0, 0⟩ = 860) ∧
    (((simulateSensorOnce ⟨[], [], []⟩ 0 "CO2 Sensor 1" ⟨0, 800⟩ ⟨0, 0, 0, 0⟩).1.alerts =
        (⟨[], [], []⟩ : Store).alerts ∧
      ∀ e ∈ (simulateSensorOnce ⟨[], [], []⟩ 0 "CO2 Sensor 1" ⟨0, 800⟩ ⟨0, 0, 0, 0⟩).2,
        isAlertEvent e = false) ↔
    (∃ lastA, mostRecentAlert ⟨[], [], []⟩ "CO2 Sensor 1" = some lastA ∧ lastA.status = .high ∧
      mathAbs (nextValue "CO2 Sensor 1" (simLatest ⟨[], [], []⟩ "CO2 Sensor 1" ⟨0, 800⟩)
          ⟨0, 800⟩ ⟨0, 0, 0, 0⟩ - lastA.value) < minDeltaOf (kindFromName "CO2 Sensor 1") ∧
      (0 : ℤ) - lastA.triggered_at < ALERT_COOLDOWN_MS)) := by
  have hT : strIncludes "CO2 Sensor 1" "Temperature" = false := by decide
  have hH : strIncludes "CO2 Sensor 1" "Humidity" = false := by decide
  have hC : strIncludes "CO2 Sensor 1" "CO2" = true := by decide
  have hv : nextValue "CO2 Sensor 1" (simLatest ⟨[], [], []⟩ "CO2 Sensor 1" ⟨0, 800⟩) ⟨0, 800⟩
      ⟨0, 0, 0, 0⟩ = 860 := by
    simp only [nextValue, baseDrift, pSpike, simLatest, findSensor, List.find?_nil,
      hT, hH, hC, if_true, if_false, round2]
    norm_num [round_eq]
  refine ⟨by decide, by decide,
    C1_dedup_gate.1 ⟨[], [], []⟩ 0 "CO2 Sensor 1" 900 none .high (by decide) (by decide),
    hv, C1_dedup_gate.2 ⟨[], [], []⟩ 0 "CO2 Sensor 1" ⟨0, 800⟩ ⟨0, 0, 0, 0⟩ .high ?_⟩
  rw [hv]
  decide

/-- C5: a status flip, or a change of at least the category's
minDelta, always raises: the alert row is appended and the alert event
published, with no condition on how recently the prior alert fired. -/
theorem C5_flip_or_swing_raises (st : Store) (now : ℤ) (name : String) (q : ℚ)
    (unit : Option String) (s : AlertStatus) (lastA : AlertRow)
    (hname : name ≠ "")
    (hs : withinAlertRange THRESHOLDS name q = some s)
    (hlast : mostRecentAlert st name = some lastA)
    (hcase : lastA.status ≠ s ∨ minDeltaOf (kindFromName name) ≤ mathAbs (q - lastA.value)) :
    (postReading noFailure st now name (.given (.finite q)) unit).store.alerts =
      ⟨name, q, s, now⟩ :: st.alerts ∧
    (postReading noFailure st now name (.given (.finite q)) unit).events =
      [.sensorUpdated ⟨name, q, unitOrNull unit, now⟩, .sensorAlert name q s now] := by
  have hr : shouldRaise (mostRecentAlert st name) name q s now = true := by
    rw [hlast]
    rcases hcase with h | h
    · have ha : (lastA.status == s) = false := by
        simp [beq_iff_eq]
        exact h
      simp [shouldRaise, ha]
    · have hb : decide (mathAbs (q - lastA.value) < minDeltaOf (kindFromName name)) = false :=
        decide_eq_false (not_lt.mpr h)
      simp [shouldRaise, hb]
  rw [postReading_cases noFailure st now name (.finite q) unit hname]
  simp only [toNumber, hs, noFailure, Bool.false_eq_true, if_false, hr, if_true]
  exact ⟨by simp [afterWrites, insertAlert], by simp⟩

/-- Witness for C5: the humidity sensor flips from a high alert to a
low reading within the cooldown window and raises anyway. -/
theorem C5_flip_or_swing_raises_witness :
    ("Humidity Sensor 1" ≠ "") ∧
    (withinAlertRange THRESHOLDS "Humidity Sensor 1" 10 = some .low) ∧
    (mostRecentAlert ⟨[], [], [⟨"Humidity Sensor 1", 70, .high, 0⟩]⟩ "Humidity Sensor 1" =
      some ⟨"Humidity Sensor 1", 70, .high, 0⟩) ∧
    ((postReading noFailure ⟨[], [], [⟨"Humidity Sensor 1", 70, .high, 0⟩]⟩ 1000
        "Humidity Sensor 1" (.given (.finite 10)) none).store.alerts =
      ⟨"Humidity Sensor 1", 10, .low, 1000⟩ :: [⟨"Humidity Sensor 1", 70, .high, 0⟩] ∧
     (postReading noFailure ⟨[], [], [⟨"Humidity Sensor 1", 70, .high, 0⟩]⟩ 1000
        "Humidity Sensor 1" (.given (.finite 10)) none).events =
      [.sensorUpdated ⟨"Humidity Sensor 1", 10, unitOrNull none, 1000⟩,
        .sensorAlert "Humidity Sensor 1" 10 .low 1000]) :=
  ⟨by decide, by decide, by decide,
    C5_flip_or_swing_raises ⟨[], [], [⟨"Humidity Sensor 1", 70, .high, 0⟩]⟩ 1000
      "Humidity Sensor 1" 10 none .low ⟨"Humidity Sensor 1", 70, .high, 0⟩
      (by decide) (by decide) (by decide) (Or.inl (by decide))⟩

/-- A some-result of the evaluator certifies an out-of-range value. -/
theorem withinAlertRange_some (tbl : String → Option Threshold)
    (name : String) (v : ℚ) (s : AlertStatus)
    (h : withinAlertRange tbl name v = some s) :
    ∃ thr, tbl name = some thr ∧ (thr.max < v ∨ v < thr.min) := by
  unfold withinAlertRange at h
  cases ht : tbl name with
  | none =>
    simp only [ht] at h
    exact Option.noConfusion h
  | some thr =>
    simp only [ht] at h
    refine ⟨thr, rfl, ?_⟩
    split_ifs at h with h1 h2
    · exact Or.inl h1
    · exact Or.inr h2

/-- The alert log after a valid call: unchanged, or the new out-of-range
row prepended. -/
theorem postReading_alerts (fail : AlertPathFailure) (st : Store) (now : ℤ)
    (name : String) (n : JSNum) (unit : Option String) (hname : name ≠ "") :
    (postReading fail st now name (.given n) unit).store.alerts = st.alerts ∨
    (∃ s, withinAlertRange THRESHOLDS name (toNumber n) = some s ∧
      (postReading fail st now name (.given n) unit).store.alerts =
        ⟨name, toNumber n, s, now⟩ :: st.alerts) := by
  rw [postReading_cases fail st now name n unit hname]
  rcases h : withinAlertRange THRESHOLDS name (toNumber n) with _ | s
  · left; simp [h, afterWrites]
  · simp only [h]
    split_ifs
    · left; simp [afterWrites]
    · left; simp [afterWrites]
    · right; exact ⟨s, rfl, by simp [afterWrites, insertAlert]⟩
    · left; simp [afterWrites]

/-- The events of a valid call: the update alone, or the update then
the alert for the evaluated status. -/
theorem postReading_events (fail : AlertPathFailure) (st : Store) (now : ℤ)
    (name : String) (n : JSNum) (unit : Option String) (hname : name ≠ "") :
    (postReading fail st now name (.given n) unit).events =
      [Event.sensorUpdated ⟨name, toNumber n, unitOrNull unit, now⟩] ∨
    (∃ s, withinAlertRange THRESHOLDS name (toNumber n) = some s ∧
      (postReading fail st now name (.given n) unit).events =
        [Event.sensorUpdated ⟨name, toNumber n, unitOrNull unit, now⟩,
          Event.sensorAlert name (toNumber n) s now]) := by
  rw [postReading_cases fail st now name n unit hname]
  rcases h : withinAlertRange THRESHOLDS name (toNumber n) with _ | s
  · left; simp [h]
  · simp only [h]
    split_ifs
    · left; rfl
    · left; rfl
    · right; exact ⟨s, rfl, rfl⟩
    · left; rfl

/-- C6: normal evaluations never touch the alert log: a reading for a
sensor with no configured threshold, or any reading evaluating to
normal, changes no alert row and publishes no alert event; and every
alert row present after a call is an old row or records a genuinely
out-of-range value, and in all cases carries status low or high. -/
theorem C6_no_normal_alerts (fail : AlertPathFailure) (st : Store) (now : ℤ)
    (name : String) (value : BodyVal) (unit : Option String) :
    (THRESHOLDS name = none →
      (postReading fail st now name value unit).store.alerts = st.alerts ∧
      ∀ e ∈ (postReading fail st now name value unit).events, isAlertEvent e = false) ∧
    (∀ n, value = .given n →
      withinAlertRange THRESHOLDS name (toNumber n) = none →
      (postReading fail st now name value unit).store.alerts = st.alerts ∧
      ∀ e ∈ (postReading fail st now name value unit).events, isAlertEvent e = false) ∧
    (∀ a ∈ (postReading fail st now name value unit).store.alerts,
      a ∈ st.alerts ∨
      ∃ thr, THRESHOLDS a.sensor_name = some thr ∧ (thr.max < a.value ∨ a.value < thr.min)) ∧
    (∀ a ∈ (postReading fail st now name value unit).store.alerts,
      a.status = .low ∨ a.status = .high) := by
  have hstat : ∀ a : AlertRow, a.status = .low ∨ a.status = .high := by
    intro a; cases a.status
    · exact Or.inl rfl
    · exact Or.inr rfl
  cases value with
  | undefined =>
    refine ⟨?_, ?_, ?_, fun a _ => hstat a⟩
    · intro _
      exact ⟨rfl, by intro e he; simp [postReading] at he⟩
    · intro n hn; cases hn
    · intro a ha
      exact Or.inl ha
  | given n =>
    by_cases hname : name = ""
    · subst hname
      refine ⟨?_, ?_, ?_, fun a _ => hstat a⟩
      · intro _
        exact ⟨by simp [postReading], by intro e he; simp [postReading] at he⟩
      · intro m hm _
        cases hm
        exact ⟨by simp [postReading], by intro e he; simp [postReading] at he⟩
      · intro a ha
        simp [postReading] at ha
        exact Or.inl ha
    · have hnone : THRESHOLDS name = none →
          withinAlertRange THRESHOLDS name (toNumber n) = none := by
        intro h; unfold withinAlertRange; rw [h]
      have hquiet : withinAlertRange THRESHOLDS name (toNumber n) = none →
          (postReading fail st now name (.given n) unit).store.alerts = st.alerts ∧
          ∀ e ∈ (postReading fail st now name (.given n) unit).events,
            isAlertEvent e = false := by
        intro hw
        constructor
        · rcases postReading_alerts fail st now name n unit hname with h | ⟨s, hs, _⟩
          · exact h
          · rw [hw] at hs; cases hs
        · rcases postReading_events fail st now name n unit hname with h | ⟨s, hs, _⟩
          · rw [h]
            intro e he
            simp only [List.mem_singleton] at he
            subst he
            rfl
          · rw [hw] at hs; cases hs
      refine ⟨fun h => hquiet (hnone h), fun m hm => by cases hm; exact hquiet, ?_,
        fun a _ => hstat a⟩
      intro a ha
      rcases postReading_alerts fail st now name n unit hname with h | ⟨s, hs, h⟩
      · rw [h] at ha
        exact Or.inl ha
      · rw [h] at ha
        rcases List.mem_cons.mp ha with rfl | hold
        · right
          exact withinAlertRange_some THRESHOLDS name (toNumber n) s hs
        · exact Or.inl hold

/-- Emission order in which any alert event is preceded by an update
event. -/
def updatesPrecedeAlerts (evs : List Event) : Prop :=
  ∀ i e, evs.get? i = some e → isAlertEvent e = true →
    ∃ j row, j < i ∧ evs.get? j = some (Event.sensorUpdated row)

/-- The property holds of a lone update event. -/
theorem updatesPrecedeAlerts_single (row : SensorRow) :
    updatesPrecedeAlerts [Event.sensorUpdated row] := by
  intro i e hi ha
  match i, hi with
  | 0, h =>
    simp only [List.get?_cons_zero, Option.some.injEq] at h
    subst h
    simp [isAlertEvent] at ha
  | n+1, h => simp at h

/-- The property holds of an update event followed by anything. -/
theorem updatesPrecedeAlerts_pair (row : SensorRow) (e2 : Event) :
    updatesPrecedeAlerts [Event.sensorUpdated row, e2] := by
  intro i e hi ha
  match i, hi with
  | 0, h =>
    simp only [List.get?_cons_zero, Option.some.injEq] at h
    subst h
    simp [isAlertEvent] at ha
  | 1, h => exact ⟨0, row, by omega, rfl⟩
  | n+2, h => simp at h

/-- C7: within every single call, on either ingestion path, the
sensor-updated event is emitted before any sensor-alert event: every
alert event in the emission list is preceded by an update event. -/
theorem C7_update_published_before_alert :
    (∀ fail st now name value unit,
      updatesPrecedeAlerts (postReading fail st now name value unit).events) ∧
    (∀ st now name thr r,
      updatesPrecedeAlerts (simulateSensorOnce st now name thr r).2) := by
  constructor
  · intro fail st now name value unit
    cases value with
    | undefined =>
      intro i e hi ha
      simp [postReading] at hi
    | given n =>
      by_cases hname : name = ""
      · subst hname
        intro i e hi ha
        simp [postReading] at hi
      · rcases postReading_events fail st now name n unit hname with h | ⟨s, _, h⟩
        · rw [h]; exact updatesPrecedeAlerts_single _
        · rw [h]; exact updatesPrecedeAlerts_pair _ _
  · intro st now name thr r
    rw [simulateSensorOnce_cases]
    rcases h : withinAlertRange THRESHOLDS name (nextValue name (simLatest st name thr) thr r)
      with _ | s
    · simp only [h]
      exact updatesPrecedeAlerts_single _
    · simp only [h]
      split_ifs
      · exact updatesPrecedeAlerts_pair _ _
      · exact updatesPrecedeAlerts_single _

/-- Witness for C9 at the CO2 sensor bounds with a spiking draw. -/
theorem C9_next_value_bounds_witness :
    ((0 : ℚ) ≤ 800) ∧
    ((0 : ℚ) - baseDrift "CO2 Sensor 1" * 6 - 1/200 ≤
        nextValue "CO2 Sensor 1" 400 ⟨0, 800⟩ ⟨0, 0, 0, 0⟩ ∧
      nextValue "CO2 Sensor 1" 400 ⟨0, 800⟩ ⟨0, 0, 0, 0⟩ ≤
        (800 : ℚ) + baseDrift "CO2 Sensor 1" * 6 + 1/200 ∧
      ∃ k : ℤ, nextValue "CO2 Sensor 1" 400 ⟨0, 800⟩ ⟨0, 0, 0, 0⟩ = (k : ℚ) / 100) :=
  ⟨by decide, C9_next_value_bounds "CO2 Sensor 1" 400 ⟨0, 800⟩ ⟨0, 0, 0, 0⟩ (by decide)⟩

/-- Totality of the codepoint-lexicographic order. -/
theorem lexLeB_total : ∀ a b : List Char, lexLeB a b = true ∨ lexLeB b a = true := by
  intro a
  induction a with
  | nil => intro b; left; rfl
  | cons x xs ih =>
    intro b
    cases b with
    | nil => right; rfl
    | cons y ys =>
      by_cases h1 : x.toNat < y.toNat
      · left; simp [lexLeB, h1]
      · by_cases h2 : y.toNat < x.toNat
        · right; simp [lexLeB, h2]
        · rcases ih ys with h | h
          · left; simp [lexLeB, h1, h2, h]
          · right; simp [lexLeB, h1, h2, h]

/-- Transitivity of the codepoint-lexicographic order. -/
theorem lexLeB_trans : ∀ a b c : List Char,
    lexLeB a b = true → lexLeB b c = true → lexLeB a c = true := by
  intro a
  induction a with
  | nil => intro b c _ _; rfl
  | cons x xs ih =>
    intro b c hab hbc
    cases b with
    | nil => simp [lexLeB] at hab
    | cons y ys =>
      cases c with
      | nil => simp [lexLeB] at hbc
      | cons z zs =>
        simp only [lexLeB] at hab hbc ⊢
        by_cases h1 : x.toNat < y.toNat
        · by_cases h2 : y.toNat < z.toNat
          · rw [if_pos (by omega : x.toNat < z.toNat)]
          · by_cases h3 : z.toNat < y.toNat
            · rw [if_neg h2, if_pos h3] at hbc
              exact absurd hbc (by simp)
            · rw [if_pos (by omega : x.toNat < z.toNat)]
        · by_cases h4 : y.toNat < x.toNat
          · rw [if_neg h1, if_pos h4] at hab
            exact absurd hab (by simp)
          · rw [if_neg h1, if_neg h4] at hab
            by_cases h2 : y.toNat < z.toNat
            · rw [if_pos (by omega : x.toNat < z.toNat)]
            · by_cases h3 : z.toNat < y.toNat
              · rw [if_neg h2, if_pos h3] at hbc
                exact absurd hbc (by simp)
              · rw [if_neg h2, if_neg h3] at hbc
                rw [if_neg (by omega : ¬ x.toNat < z.toNat),
                  if_neg (by omega : ¬ z.toNat < x.toNat)]
                exact ih ys zs hab hbc

/-- C8: on connect the socket is sent the full snapshot set — a
permutation of the sensors table sorted ascending by name, still one
row per identity — and the most recent 50 alerts in most-recent-first
order; every alert beyond those 50 is at least as old as each sent
one; afterwards the pipeline broadcasts only the two delta events. -/
theorem C8_connect_payload (st : Store)
    (hnodup : (st.sensors.map SensorRow.name).Nodup)
    (hsorted : st.alerts.Pairwise (fun a b => b.triggered_at ≤ a.triggered_at)) :
    (onConnection st).allSensors.Perm st.sensors ∧
    (onConnection st).allSensors.Pairwise (fun a b => nameLe a b = true) ∧
    ((onConnection st).allSensors.map SensorRow.name).Nodup ∧
    (onConnection st).allAlerts =
      (st.alerts.take 50).map (fun a => ⟨a.sensor_name, a.value, a.status, a.triggered_at⟩) ∧
    (onConnection st).allAlerts.length = min 50 st.alerts.length ∧
    (onConnection st).allAlerts.Pairwise (fun a b => b.time ≤ a.time) ∧
    (∀ a ∈ st.alerts.drop 50, ∀ b ∈ (onConnection st).allAlerts, a.triggered_at ≤ b.time) := by
  have htrans : ∀ a b c : SensorRow,
      nameLe a b = true → nameLe b c = true → nameLe a c = true :=
    fun a b c hab hbc => lexLeB_trans _ _ _ hab hbc
  have htotal : ∀ a b : SensorRow, (nameLe a b || nameLe b a) = true := by
    intro a b
    rw [Bool.or_eq_true]
    rcases lexLeB_total a.name.toList b.name.toList with h | h
    · exact Or.inl h
    · exact Or.inr h
  have hperm : ((onConnection st).allSensors).Perm st.sensors :=
    List.mergeSort_perm st.sensors nameLe
  refine ⟨hperm, List.sorted_mergeSort htrans htotal st.sensors, ?_, rfl, ?_, ?_, ?_⟩
  · exact ((hperm.map SensorRow.name).nodup_iff).mpr hnodup
  · simp only [onConnection]
    rw [List.length_map, List.length_take]
  · simp only [onConnection]
    rw [List.pairwise_map]
    exact hsorted.sublist (List.take_sublist _ _)
  · intro a ha b hb
    simp only [onConnection, List.mem_map] at hb
    obtain ⟨x, hx, rfl⟩ := hb
    have hall : List.Pairwise (fun a b : AlertRow => b.triggered_at ≤ a.triggered_at)
        (List.take 50 st.alerts ++ List.drop 50 st.alerts) := by
      rw [List.take_append_drop]
      exact hsorted
    exact (List.pairwise_append.mp hall).2.2 x hx a ha

/-- Witness for C8 on a store with two unsorted sensor rows and three
alerts in descending trigger order. -/
theorem C8_connect_payload_witness :
    (((⟨[], [⟨"B", 1, none, 0⟩, ⟨"A", 2, none, 0⟩],
        [⟨"A", 5, .high, 30⟩, ⟨"B", 6, .low, 20⟩, ⟨"A", 7, .high, 10⟩]⟩ : Store).sensors.map
          SensorRow.name).Nodup ∧
      (⟨[], [⟨"B", 1, none, 0⟩, ⟨"A", 2, none, 0⟩],
        [⟨"A", 5, .high, 30⟩, ⟨"B", 6, .low, 20⟩, ⟨"A", 7, .high, 10⟩]⟩ : Store).alerts.Pairwise
          (fun a b => b.triggered_at ≤ a.triggered_at)) ∧
    ((onConnection ⟨[], [⟨"B", 1, none, 0⟩, ⟨"A", 2, none, 0⟩],
        [⟨"A", 5, .high, 30⟩, ⟨"B", 6, .low, 20⟩, ⟨"A", 7, .high, 10⟩]⟩).allSensors.Perm
          [⟨"B", 1, none, 0⟩, ⟨"A", 2, none, 0⟩] ∧
      (onConnection ⟨[], [⟨"B", 1, none, 0⟩, ⟨"A", 2, none, 0⟩],
        [⟨"A", 5, .high, 30⟩, ⟨"B", 6, .low, 20⟩, ⟨"A", 7, .high, 10⟩]⟩).allSensors.Pairwise
          (fun a b => nameLe a b = true) ∧
      ((onConnection ⟨[], [⟨"B", 1, none, 0⟩, ⟨"A", 2, none, 0⟩],
        [⟨"A", 5, .high, 30⟩, ⟨"B", 6, .low, 20⟩, ⟨"A", 7, .high, 10⟩]⟩).allSensors.map
          SensorRow.name).Nodup ∧
      (onConnection ⟨[], [⟨"B", 1, none, 0⟩, ⟨"A", 2, none, 0⟩],
        [⟨"A", 5, .high, 30⟩, ⟨"B", 6, .low, 20⟩, ⟨"A", 7, .high, 10⟩]⟩).allAlerts =
        (([⟨"A", 5, .high, 30⟩, ⟨"B", 6, .low, 20⟩, ⟨"A", 7, .high, 10⟩] :
            List AlertRow).take 50).map
          (fun a => ⟨a.sensor_name, a.value, a.status, a.triggered_at⟩) ∧
      (onConnection ⟨[], [⟨"B", 1, none, 0⟩, ⟨"A", 2, none, 0⟩],
        [⟨"A", 5, .high, 30⟩, ⟨"B", 6, .low, 20⟩, ⟨"A", 7, .high, 10⟩]⟩).allAlerts.length =
        min 50 ([⟨"A", 5, .high, 30⟩, ⟨"B", 6, .low, 20⟩, ⟨"A", 7, .high, 10⟩] :
          List AlertRow).length ∧
      (onConnection ⟨[], [⟨"B", 1, none, 0⟩, ⟨"A", 2, none, 0⟩],
        [⟨"A", 5, .high, 30⟩, ⟨"B", 6, .low, 20⟩, ⟨"A", 7, .high, 10⟩]⟩).allAlerts.Pairwise
          (fun a b => b.time ≤ a.time) ∧
      (∀ a ∈ ([⟨"A", 5, .high, 30⟩, ⟨"B", 6, .low, 20⟩, ⟨"A", 7, .high, 10⟩] :
          List AlertRow).drop 50,
        ∀ b ∈ (onConnection ⟨[], [⟨"B", 1, none, 0⟩, ⟨"A", 2, none, 0⟩],
          [⟨"A", 5, .high, 30⟩, ⟨"B", 6, .low, 20⟩, ⟨"A", 7, .high, 10⟩]⟩).allAlerts,
          a.triggered_at ≤ b.time)) :=
  ⟨⟨by decide, by decide⟩,
    C8_connect_payload
      ⟨[], [⟨"B", 1, none, 0⟩, ⟨"A", 2, none, 0⟩],
        [⟨"A", 5, .high, 30⟩, ⟨"B", 6, .low, 20⟩, ⟨"A", 7, .high, 10⟩]⟩
      (by decide) (by decide)⟩

end Dash
